import Mathlib

/-!
Verification development for the Pavlodar wildfire-danger backend.

The Danger-Index Engine lives in `backend/app/fire_index.py`; each Lean
definition below mirrors one Python function from that module, with Python
floats embedded as real numbers and `round(x, 2)` embedded as `round2`.
The enum types come from `backend/app/models.py`.
-/

/-- Vegetation type enum from `models.py` (a Python `str` enum with values
"coniferous", "deciduous", "mixed"). -/
inductive VegetationType
  | CONIFEROUS
  | DECIDUOUS
  | MIXED
deriving DecidableEq

/-- Danger level enum from `models.py` (a Python `str` enum with values
"low", "medium", "high", "extreme"). -/
inductive DangerLevel
  | LOW
  | MEDIUM
  | HIGH
  | EXTREME
deriving DecidableEq

/-- The string value carried by each `DangerLevel` member (Python `str` enum:
`DangerLevel.LOW.value == "low"`, and `DangerLevel.LOW == "low"` compares true,
so dictionary lookups keyed by the enum accept its string value). -/
def DangerLevel.value : DangerLevel → String
  | DangerLevel.LOW => "low"
  | DangerLevel.MEDIUM => "medium"
  | DangerLevel.HIGH => "high"
  | DangerLevel.EXTREME => "extreme"

/-- Embedding of Python `round(x, 2)`: round to 2 decimal places.
(Tie-breaking at exact half-cents is immaterial to every statement below.) -/
noncomputable def round2 (x : ℝ) : ℝ := (round (x * 100) : ℤ) / 100

/-- `calculate_humidity_deficit(temperature, humidity)` from `fire_index.py`:
Magnus saturated vapor pressure, deficit clamped to `max(0, ...)`, and an early
`return 0.0` for `temperature <= 0`. -/
noncomputable def calculate_humidity_deficit (temperature humidity : ℝ) : ℝ :=
  if temperature ≤ 0 then 0
  else
    max 0 ((100 - humidity) * (6.11 * (10 : ℝ) ^ (7.5 * temperature / (237.3 + temperature))) / 100)

/-- `calculate_nesterov_index(temperature, humidity, precipitation, previous_index)`
from `fire_index.py`: reset to 0 when precipitation ≥ 3.0 mm, otherwise add the
daily increment `temperature * deficit` (0 for non-positive temperature) to the
previous index and round to 2 decimals. -/
noncomputable def calculate_nesterov_index
    (temperature humidity precipitation previous_index : ℝ) : ℝ :=
  if 3.0 ≤ precipitation then 0
  else
    round2 (previous_index +
      (if 0 < temperature then temperature * calculate_humidity_deficit temperature humidity
       else 0))

/-- The rain-absorption adjustment applied to the initial fuel moisture `mo` in
`calculate_ffmc` when `precipitation > 0.5` (with `rf = precipitation - 0.5`,
the `mo > 150` branch adding a quadratic correction term, and the final
`mo = min(mo, 250)` cap); `mo` is returned unchanged otherwise. -/
noncomputable def ffmc_rain_mo (mo precipitation : ℝ) : ℝ :=
  if 0.5 < precipitation then
    min
      (if mo ≤ 150 then
        mo + 42.5 * (precipitation - 0.5) * Real.exp (-100 / (251 - mo)) *
          (1 - Real.exp (-6.93 / (precipitation - 0.5)))
      else
        mo + 42.5 * (precipitation - 0.5) * Real.exp (-100 / (251 - mo)) *
          (1 - Real.exp (-6.93 / (precipitation - 0.5))) +
          0.0015 * (mo - 150) ^ 2 * Real.sqrt (precipitation - 0.5))
      250
  else mo

/-- `calculate_ffmc(temperature, humidity, wind_speed, precipitation)` from
`fire_index.py`: fixed initial moisture `mo = 85.0`, rain adjustment, the
drying (`mo > ed`) / wetting (`mo < ew`) equilibrium laws, conversion
`ffmc = 59.5*(250-m)/(147.2+m)`, clamp to [0,100], round to 2 decimals. -/
noncomputable def calculate_ffmc (temperature humidity wind_speed precipitation : ℝ) : ℝ :=
  let mo := ffmc_rain_mo 85.0 precipitation
  let ed := 0.942 * humidity ^ (0.679 : ℝ) + 11 * Real.exp ((humidity - 100) / 10) +
    0.18 * (21.1 - temperature) * (1 - Real.exp (-0.115 * humidity))
  let ew := 0.618 * humidity ^ (0.753 : ℝ) + 10 * Real.exp ((humidity - 100) / 10) +
    0.18 * (21.1 - temperature) * (1 - Real.exp (-0.115 * humidity))
  let m :=
    if ed < mo then
      let ko := 0.424 * (1 - (humidity / 100) ^ (1.7 : ℝ)) +
        0.0694 * Real.sqrt (wind_speed * 3.6) * (1 - (humidity / 100) ^ (8 : ℕ))
      let kd := ko * 0.581 * Real.exp (0.0365 * temperature)
      ed + (mo - ed) * (10 : ℝ) ^ (-kd)
    else if mo < ew then
      let kl := 0.424 * (1 - ((100 - humidity) / 100) ^ (1.7 : ℝ)) +
        0.0694 * Real.sqrt (wind_speed * 3.6) * (1 - ((100 - humidity) / 100) ^ (8 : ℕ))
      let kw := kl * 0.581 * Real.exp (0.0365 * temperature)
      ew - (ew - mo) * (10 : ℝ) ^ (-kw)
    else mo
  round2 (max 0 (min 100 (59.5 * (250 - m) / (147.2 + m))))

/-- `calculate_isi(wind_speed, ffmc)` from `fire_index.py`: invert FFMC to
moisture `m`, wind function `exp(0.05039 * wind_kmh)`, fuel function
`91.9*exp(-0.1386*m)*(1 + m^5.31/4.93e7)`, `isi = 0.208*fw*ff`, rounded. -/
noncomputable def calculate_isi (wind_speed ffmc : ℝ) : ℝ :=
  let m := 147.2 * (101 - ffmc) / (59.5 + ffmc)
  let fw := Real.exp (0.05039 * (wind_speed * 3.6))
  let ff := 91.9 * Real.exp (-0.1386 * m) * (1 + m ^ (5.31 : ℝ) / (4.93 * (10 : ℝ) ^ (7 : ℕ)))
  round2 (0.208 * fw * ff)

/-- The value `fwi = isi * vegetation_factor * precipitation_factor` computed in
`calculate_simplified_fwi` before the temperature correction is applied. -/
noncomputable def fwi_before_temperature_correction
    (temperature humidity wind_speed precipitation vegetation_moisture : ℝ) : ℝ :=
  calculate_isi wind_speed (calculate_ffmc temperature humidity wind_speed precipitation) *
    max 0.3 (1 - vegetation_moisture / 200) * max 0 (1 - precipitation / 10)

/-- `calculate_simplified_fwi(temperature, humidity, wind_speed, precipitation,
vegetation_moisture)` from `fire_index.py`: FFMC→ISI chain, vegetation and
precipitation factors, temperature correction (`> 25` warm scaling, `< 10`
cold scaling with a 0.3 floor), clamp to ≥ 0, round to 2 decimals. -/
noncomputable def calculate_simplified_fwi
    (temperature humidity wind_speed precipitation vegetation_moisture : ℝ) : ℝ :=
  let fwi := fwi_before_temperature_correction
    temperature humidity wind_speed precipitation vegetation_moisture
  let fwi2 :=
    if 25 < temperature then fwi * (1 + (temperature - 25) * 0.02)
    else if temperature < 10 then fwi * max 0.3 (temperature / 10)
    else fwi
  round2 (max 0 fwi2)

/-- `get_vegetation_coefficient(vegetation_type)` from `fire_index.py`
(dictionary lookup with default 1.0; the dictionary covers every member of the
closed `VegetationType` enum, so the default arm is never taken). -/
noncomputable def get_vegetation_coefficient : VegetationType → ℝ
  | VegetationType.CONIFEROUS => 1.5
  | VegetationType.MIXED => 1.25
  | VegetationType.DECIDUOUS => 1.0

/-- `calculate_composite_index(nesterov_index, fwi_index, vegetation_type,
wind_speed, soil_moisture)` from `fire_index.py`: normalise both indices, take
the 0.5/0.5 weighted mean, multiply by vegetation, wind and soil factors,
round to 2 decimals. -/
noncomputable def calculate_composite_index
    (nesterov_index fwi_index : ℝ) (vegetation_type : VegetationType)
    (wind_speed soil_moisture : ℝ) : ℝ :=
  round2 ((0.5 * min 100 (nesterov_index / 100) + 0.5 * min 100 fwi_index) *
    get_vegetation_coefficient vegetation_type *
    (1 + max 0 (wind_speed - 5) * 0.05) *
    max 0.5 (1 - soil_moisture / 200))

/-- `determine_danger_level(composite_index)` from `fire_index.py`: four-way
threshold chain returning (level, Russian label, hex color). -/
noncomputable def determine_danger_level (composite_index : ℝ) :
    DangerLevel × String × String :=
  if composite_index < 20 then (DangerLevel.LOW, "Низкий", "#22c55e")
  else if composite_index < 50 then (DangerLevel.MEDIUM, "Средний", "#eab308")
  else if composite_index < 75 then (DangerLevel.HIGH, "Высокий", "#f97316")
  else (DangerLevel.EXTREME, "Чрезвычайный", "#ef4444")

/-- `get_recommendations(danger_level, composite_index)` from `fire_index.py`:
`recommendations.get(danger_level, [])` over a dictionary keyed by the four
`DangerLevel` members. Since `DangerLevel` is a Python `str` enum, the lookup
key is its string value, and any other string falls through to `[]`;
`composite_index` is accepted but never read. -/
def get_recommendations (danger_level : String) (composite_index : ℝ) : List String :=
  if danger_level = "low" then
    ["Пожарная обстановка в пределах нормы",
     "Продолжать штатный мониторинг территории",
     "Поддерживать стандартный уровень готовности"]
  else if danger_level = "medium" then
    ["Усилить патрулирование лесных массивов",
     "Проверить готовность противопожарного оборудования",
     "Ограничить разведение костров в лесной зоне",
     "Информировать население о мерах предосторожности"]
  else if danger_level = "high" then
    ["Ввести особый противопожарный режим",
     "Запретить посещение лесов гражданами",
     "Организовать дежурство пожарных расчетов",
     "Подготовить технику для оперативного реагирования",
     "Усилить авиапатрулирование территории"]
  else if danger_level = "extreme" then
    ["ВНИМАНИЕ! Чрезвычайная пожарная опасность!",
     "Ввести режим чрезвычайной ситуации",
     "Запретить любые работы в лесной зоне",
     "Мобилизовать все противопожарные силы",
     "Подготовить эвакуацию населенных пунктов вблизи лесов",
     "Оповестить все службы экстренного реагирования",
     "Организовать круглосуточное дежурство"]
  else []

/-- Result record of the Spread-Rate Engine operation. -/
structure SpreadResult where
  v1 : ℝ
  v2 : ℝ
  v3 : ℝ
  perimeter : ℝ
  area : ℝ
  areaHectares : ℝ

/-- Modelled from the spec: the Spread-Rate Engine operation
`calculateFireSpread(E, v, rho, W, t)` is described in the specification but
its source file is not among the backend sources under `src/`. Formulas follow
the spec text: `v1 = 26*E*(1+2.7*v)*(2+W)/(rho*(16+W))` m/min,
`v2 = 0.35*v1 + 0.17`, `v3 = 0.10*v1 + 0.20`,
`P = 2π*sqrt(((v1+v3)² + v2²)/8)*t`, `S = 4e-6*P²`, `areaHa = S/10000`. -/
noncomputable def calculateFireSpread (E v rho W t : ℝ) : SpreadResult :=
  let v1 := 26 * E * (1 + 2.7 * v) * (2 + W) / (rho * (16 + W))
  let v2 := 0.35 * v1 + 0.17
  let v3 := 0.10 * v1 + 0.20
  let P := 2 * Real.pi * Real.sqrt (((v1 + v3) ^ 2 + v2 ^ 2) / 8) * t
  let S := 4e-6 * P ^ 2
  { v1 := v1, v2 := v2, v3 := v3, perimeter := P, area := S, areaHectares := S / 10000 }

/-! ### Helper lemmas about `round2` -/

theorem round2_mono {x y : ℝ} (h : x ≤ y) : round2 x ≤ round2 y := by
  unfold round2
  have hr : round (x * 100) ≤ round (y * 100) := by
    rw [round_eq, round_eq]
    exact Int.floor_le_floor (by linarith)
  exact (div_le_div_right (by norm_num)).mpr (by exact_mod_cast hr)

theorem round2_nonneg {x : ℝ} (h : 0 ≤ x) : 0 ≤ round2 x := by
  have h0 : round2 0 ≤ round2 x := round2_mono h
  have : round2 (0 : ℝ) = 0 := by
    unfold round2
    norm_num
  linarith

theorem round2_hundred : round2 (100 : ℝ) = 100 := by
  unfold round2
  rw [show ((100 : ℝ) * 100) = ((10000 : ℤ) : ℝ) by norm_num, round_intCast]
  norm_num

/-! ### Claim theorems -/

/-- C1: `determine_danger_level` realises the half-open four-way partition of
the non-negative composite-index line: the low triple (#22c55e) is returned
exactly on [0,20), the medium triple (#eab308) exactly on [20,50), the high
triple (#f97316) exactly on [50,75) and the extreme triple (#ef4444) exactly
on [75,∞); in particular the boundary values 20, 50 and 75 fall in the band
starting at that value, and the four bands are exhaustive and disjoint. -/
theorem determine_danger_level_partition (c : ℝ) (hc : 0 ≤ c) :
    (determine_danger_level c = (DangerLevel.LOW, "Низкий", "#22c55e") ↔ 0 ≤ c ∧ c < 20) ∧
    (determine_danger_level c = (DangerLevel.MEDIUM, "Средний", "#eab308") ↔ 20 ≤ c ∧ c < 50) ∧
    (determine_danger_level c = (DangerLevel.HIGH, "Высокий", "#f97316") ↔ 50 ≤ c ∧ c < 75) ∧
    (determine_danger_level c = (DangerLevel.EXTREME, "Чрезвычайный", "#ef4444") ↔ 75 ≤ c) := by
  unfold determine_danger_level
  split_ifs with h1 h2 h3 <;>
    refine ⟨?_, ?_, ?_, ?_⟩ <;> constructor <;> intro hx <;>
    simp_all <;> linarith

/-- C1 witness: the boundary composite index 75 lies in the band starting at
75 and is classified extreme. -/
theorem determine_danger_level_partition_witness :
    (0 : ℝ) ≤ 75 ∧
      determine_danger_level 75 = (DangerLevel.EXTREME, "Чрезвычайный", "#ef4444") :=
  ⟨by norm_num,
   (determine_danger_level_partition 75 (by norm_num)).2.2.2.mpr (by norm_num)⟩

/-- C10: `determine_danger_level` is total on all real inputs: every
composite index below 20, including negative values outside the documented
domain, returns the low triple rather than failing or producing a distinct
out-of-range result. -/
theorem determine_danger_level_total_below_twenty (c : ℝ) (h : c < 20) :
    determine_danger_level c = (DangerLevel.LOW, "Низкий", "#22c55e") := by
  unfold determine_danger_level
  rw [if_pos h]

/-- C10 witness: the negative composite index -5 maps to the low triple. -/
theorem determine_danger_level_total_below_twenty_witness :
    (-5 : ℝ) < 20 ∧
      determine_danger_level (-5) = (DangerLevel.LOW, "Низкий", "#22c55e") :=
  ⟨by norm_num, determine_danger_level_total_below_twenty (-5) (by norm_num)⟩

/-- C3: `calculate_nesterov_index` returns 0 whenever precipitation ≥ 3.0, and
otherwise returns the previous index plus the daily increment
`temperature * humidity_deficit` (the increment being 0 when the temperature
is not positive), rounded to 2 decimals. -/
theorem calculate_nesterov_index_spec (T h p prev : ℝ) :
    (3.0 ≤ p → calculate_nesterov_index T h p prev = 0) ∧
    (p < 3.0 → calculate_nesterov_index T h p prev =
      round2 (prev + (if 0 < T then T * calculate_humidity_deficit T h else 0))) ∧
    (p < 3.0 → T ≤ 0 → calculate_nesterov_index T h p prev = round2 prev) := by
  unfold calculate_nesterov_index
  refine ⟨fun hp => ?_, fun hp => ?_, fun hp hT => ?_⟩
  · rw [if_pos hp]
  · rw [if_neg (not_le.mpr hp)]
  · rw [if_neg (not_le.mpr hp), if_neg (not_lt.mpr hT), add_zero]

/-- C3 witness: a rainy day (precipitation 5 ≥ 3) resets the index to 0, and a
dry day (precipitation 1 < 3) adds the daily increment to the previous index. -/
theorem calculate_nesterov_index_spec_witness :
    (3.0 ≤ (5 : ℝ) ∧ calculate_nesterov_index 10 50 5 7 = 0) ∧
    ((1 : ℝ) < 3.0 ∧ calculate_nesterov_index 10 50 1 7 =
      round2 (7 + (if (0 : ℝ) < 10 then 10 * calculate_humidity_deficit 10 50 else 0))) :=
  ⟨⟨by norm_num, (calculate_nesterov_index_spec 10 50 5 7).1 (by norm_num)⟩,
   ⟨by norm_num, (calculate_nesterov_index_spec 10 50 1 7).2.1 (by norm_num)⟩⟩

/-- C7: `calculate_humidity_deficit` returns 0 for every temperature ≤ 0, and
for positive temperature returns `(100 - humidity) * e_s / 100` clamped to ≥ 0,
where `e_s = 6.11 * 10^(7.5*T/(237.3+T))` is the Magnus saturated vapor
pressure. -/
theorem calculate_humidity_deficit_spec (T h : ℝ) :
    (T ≤ 0 → calculate_humidity_deficit T h = 0) ∧
    (0 < T → calculate_humidity_deficit T h =
      max 0 ((100 - h) * (6.11 * (10 : ℝ) ^ (7.5 * T / (237.3 + T))) / 100)) := by
  unfold calculate_humidity_deficit
  refine ⟨fun hT => ?_, fun hT => ?_⟩
  · rw [if_pos hT]
  · rw [if_neg (not_le.mpr hT)]

/-- C7 witness: at temperature -5 the deficit is 0, and at temperature 25 it
equals the clamped Magnus formula. -/
theorem calculate_humidity_deficit_spec_witness :
    ((-5 : ℝ) ≤ 0 ∧ calculate_humidity_deficit (-5) 50 = 0) ∧
    ((0 : ℝ) < 25 ∧ calculate_humidity_deficit 25 50 =
      max 0 ((100 - 50) * (6.11 * (10 : ℝ) ^ ((7.5 * 25 / (237.3 + 25) : ℝ))) / 100)) :=
  ⟨⟨by norm_num, (calculate_humidity_deficit_spec (-5) 50).1 (by norm_num)⟩,
   ⟨by norm_num, (calculate_humidity_deficit_spec 25 50).2 (by norm_num)⟩⟩

/-- C9: in `calculate_ffmc` the initial fuel moisture `mo` is the fixed
constant 85.0 ≤ 150, so whenever precipitation > 0.5 the rain adjustment takes
the `mo ≤ 150` branch; the `mo > 150` branch with its quadratic correction
term is unreachable. -/
theorem ffmc_rain_mo_first_branch (p : ℝ) (hp : 0.5 < p) :
    ffmc_rain_mo 85.0 p =
      min (85.0 + 42.5 * (p - 0.5) * Real.exp (-100 / (251 - 85.0)) *
        (1 - Real.exp (-6.93 / (p - 0.5)))) 250 := by
  unfold ffmc_rain_mo
  rw [if_pos hp, if_pos (by norm_num : (85.0 : ℝ) ≤ 150)]

/-- C9 witness: with precipitation 1 > 0.5 the rain-adjusted moisture equals
the `mo ≤ 150` branch value at `mo = 85`. -/
theorem ffmc_rain_mo_first_branch_witness :
    (0.5 : ℝ) < 1 ∧
      ffmc_rain_mo 85.0 1 =
        min (85.0 + 42.5 * (1 - 0.5) * Real.exp (-100 / (251 - 85.0)) *
          (1 - Real.exp (-6.93 / (1 - 0.5)))) 250 :=
  ⟨by norm_num, ffmc_rain_mo_first_branch 1 (by norm_num)⟩

/-- C8: `get_recommendations` depends only on the danger level, never on the
composite index; each of the four known levels maps to a fixed list of between
3 and 7 strings, and an unknown level yields the empty list. -/
theorem get_recommendations_level_only (lvl : String) (c1 c2 : ℝ) :
    get_recommendations lvl c1 = get_recommendations lvl c2 ∧
    (∀ d : DangerLevel, 3 ≤ (get_recommendations d.value c1).length ∧
      (get_recommendations d.value c1).length ≤ 7) ∧
    (lvl ≠ "low" → lvl ≠ "medium" → lvl ≠ "high" → lvl ≠ "extreme" →
      get_recommendations lvl c1 = []) := by
  refine ⟨rfl, fun d => ?_, fun h1 h2 h3 h4 => ?_⟩
  · cases d <;> simp [get_recommendations, DangerLevel.value]
  · simp [get_recommendations, h1, h2, h3, h4]

/-- C8 witness: an unknown level string yields the empty list, and the low
level yields its fixed 3-element list regardless of the composite index. -/
theorem get_recommendations_level_only_witness :
    get_recommendations "unknown" 0 = [] ∧
    3 ≤ (get_recommendations DangerLevel.LOW.value 0).length ∧
    get_recommendations DangerLevel.LOW.value 0 = get_recommendations DangerLevel.LOW.value 1 :=
  ⟨(get_recommendations_level_only "unknown" 0 1).2.2
      (by decide) (by decide) (by decide) (by decide),
   ((get_recommendations_level_only "unknown" 0 1).2.1 DangerLevel.LOW).1,
   (get_recommendations_level_only DangerLevel.LOW.value 0 1).1⟩

/-- C6: in `calculate_simplified_fwi` the temperature correction multiplies the
intermediate fwi by `1 + (temperature-25)*0.02` when temperature > 25 and by
`max(0.3, temperature/10)` when temperature < 10; for temperature ≤ 0 the
applied factor is exactly the 0.3 floor; for temperature in [10,25] no
correction is applied; and the final result is `max(0, fwi)` rounded to 2
decimals. -/
theorem calculate_simplified_fwi_temperature_correction (T h w p vm : ℝ) :
    (25 < T → calculate_simplified_fwi T h w p vm =
      round2 (max 0 (fwi_before_temperature_correction T h w p vm * (1 + (T - 25) * 0.02)))) ∧
    (T < 10 → calculate_simplified_fwi T h w p vm =
      round2 (max 0 (fwi_before_temperature_correction T h w p vm * max 0.3 (T / 10)))) ∧
    (T ≤ 0 → calculate_simplified_fwi T h w p vm =
      round2 (max 0 (fwi_before_temperature_correction T h w p vm * 0.3))) ∧
    (10 ≤ T → T ≤ 25 → calculate_simplified_fwi T h w p vm =
      round2 (max 0 (fwi_before_temperature_correction T h w p vm))) := by
  simp only [calculate_simplified_fwi]
  refine ⟨fun h1 => ?_, fun h1 => ?_, fun h1 => ?_, fun h1 h2 => ?_⟩
  · rw [if_pos h1]
  · rw [if_neg (by linarith), if_pos h1]
  · rw [if_neg (by linarith), if_pos (by linarith),
      max_eq_left (by linarith : T / 10 ≤ 0.3)]
  · rw [if_neg (by linarith), if_neg (by linarith)]

/-- C6 witness: at temperatures 30, -5 and 15 the three correction regimes
(warm scaling, 0.3 cold floor, no correction) are hit. -/
theorem calculate_simplified_fwi_temperature_correction_witness :
    ((25 : ℝ) < 30 ∧ calculate_simplified_fwi 30 40 5 0 100 =
      round2 (max 0 (fwi_before_temperature_correction 30 40 5 0 100 * (1 + (30 - 25) * 0.02)))) ∧
    ((-5 : ℝ) ≤ 0 ∧ calculate_simplified_fwi (-5) 40 5 0 100 =
      round2 (max 0 (fwi_before_temperature_correction (-5) 40 5 0 100 * 0.3))) ∧
    ((10 : ℝ) ≤ 15 ∧ (15 : ℝ) ≤ 25 ∧ calculate_simplified_fwi 15 40 5 0 100 =
      round2 (max 0 (fwi_before_temperature_correction 15 40 5 0 100))) :=
  ⟨⟨by norm_num,
    (calculate_simplified_fwi_temperature_correction 30 40 5 0 100).1 (by norm_num)⟩,
   ⟨by norm_num,
    (calculate_simplified_fwi_temperature_correction (-5) 40 5 0 100).2.2.1 (by norm_num)⟩,
   by norm_num, by norm_num,
   (calculate_simplified_fwi_temperature_correction 15 40 5 0 100).2.2.2
     (by norm_num) (by norm_num)⟩

theorem round2_intCast (z : ℤ) : round2 ((z : ℝ)) = (z : ℝ) := by
  unfold round2
  rw [show ((z : ℝ) * 100) = ((z * 100 : ℤ) : ℝ) by push_cast; ring, round_intCast]
  push_cast
  ring

/-- C4 counterexample: `calculate_composite_index` is not monotonically
non-decreasing in `wind_speed` when the fixed `nesterov_index` is negative:
at nesterov_index = -20000, fwi_index = 0, deciduous vegetation and
soil_moisture = 0, increasing the wind speed from 5 to 25 strictly decreases
the result (from -100 to -200). -/
theorem calculate_composite_index_wind_not_monotone :
    (5 : ℝ) ≤ 25 ∧
    ¬ (calculate_composite_index (-20000) 0 VegetationType.DECIDUOUS 5 0 ≤
        calculate_composite_index (-20000) 0 VegetationType.DECIDUOUS 25 0) := by
  have e1 : calculate_composite_index (-20000) 0 VegetationType.DECIDUOUS 5 0 = -100 := by
    unfold calculate_composite_index
    have h : (0.5 * min 100 ((-20000 : ℝ) / 100) + 0.5 * min 100 (0 : ℝ)) *
        get_vegetation_coefficient VegetationType.DECIDUOUS *
        (1 + max 0 ((5 : ℝ) - 5) * 0.05) * max 0.5 (1 - (0 : ℝ) / 200) = ((-100 : ℤ) : ℝ) := by
      norm_num [get_vegetation_coefficient, min_def, max_def]
    rw [h, round2_intCast]
    norm_num
  have e2 : calculate_composite_index (-20000) 0 VegetationType.DECIDUOUS 25 0 = -200 := by
    unfold calculate_composite_index
    have h : (0.5 * min 100 ((-20000 : ℝ) / 100) + 0.5 * min 100 (0 : ℝ)) *
        get_vegetation_coefficient VegetationType.DECIDUOUS *
        (1 + max 0 ((25 : ℝ) - 5) * 0.05) * max 0.5 (1 - (0 : ℝ) / 200) = ((-200 : ℤ) : ℝ) := by
      norm_num [get_vegetation_coefficient, min_def, max_def]
    rw [h, round2_intCast]
    norm_num
  refine ⟨by norm_num, ?_⟩
  rw [e1, e2]
  norm_num

/-- C4 (amended): `calculate_composite_index` is monotonically non-decreasing
in `nesterov_index` and in `fwi_index` unconditionally, and in `wind_speed`
provided the fixed `nesterov_index` and `fwi_index` are non-negative (as every
engine-produced index is), for every fixed vegetation type and soil moisture. -/
theorem calculate_composite_index_monotone (vt : VegetationType) (sm : ℝ) :
    (∀ f w n1 n2, n1 ≤ n2 →
      calculate_composite_index n1 f vt w sm ≤ calculate_composite_index n2 f vt w sm) ∧
    (∀ n w f1 f2, f1 ≤ f2 →
      calculate_composite_index n f1 vt w sm ≤ calculate_composite_index n f2 vt w sm) ∧
    (∀ n f w1 w2, 0 ≤ n → 0 ≤ f → w1 ≤ w2 →
      calculate_composite_index n f vt w1 sm ≤ calculate_composite_index n f vt w2 sm) := by
  have hveg : 0 ≤ get_vegetation_coefficient vt := by
    cases vt <;> norm_num [get_vegetation_coefficient]
  have hsoil : 0 ≤ max 0.5 (1 - sm / 200) := le_trans (by norm_num) (le_max_left _ _)
  have hwind : ∀ w : ℝ, 0 ≤ 1 + max 0 (w - 5) * 0.05 := by
    intro w
    have h := le_max_left (0 : ℝ) (w - 5)
    nlinarith
  refine ⟨fun f w n1 n2 hn => ?_, fun n w f1 f2 hf => ?_, fun n f w1 w2 hn hf hw => ?_⟩
  · unfold calculate_composite_index
    apply round2_mono
    have h1 : min 100 (n1 / 100) ≤ min 100 (n2 / 100) :=
      min_le_min (le_refl _) (by linarith)
    have hbase : 0.5 * min 100 (n1 / 100) + 0.5 * min 100 f ≤
        0.5 * min 100 (n2 / 100) + 0.5 * min 100 f := by linarith
    exact mul_le_mul_of_nonneg_right
      (mul_le_mul_of_nonneg_right (mul_le_mul_of_nonneg_right hbase hveg) (hwind w)) hsoil
  · unfold calculate_composite_index
    apply round2_mono
    have h1 : min 100 f1 ≤ min 100 f2 := min_le_min (le_refl _) hf
    have hbase : 0.5 * min 100 (n / 100) + 0.5 * min 100 f1 ≤
        0.5 * min 100 (n / 100) + 0.5 * min 100 f2 := by linarith
    exact mul_le_mul_of_nonneg_right
      (mul_le_mul_of_nonneg_right (mul_le_mul_of_nonneg_right hbase hveg) (hwind w)) hsoil
  · unfold calculate_composite_index
    apply round2_mono
    have h1 : (0 : ℝ) ≤ min 100 (n / 100) :=
      le_min (by norm_num) (div_nonneg hn (by norm_num))
    have h2 : (0 : ℝ) ≤ min 100 f := le_min (by norm_num) hf
    have hbase0 : 0 ≤ 0.5 * min 100 (n / 100) + 0.5 * min 100 f := by linarith
    have hwf : 1 + max 0 (w1 - 5) * 0.05 ≤ 1 + max 0 (w2 - 5) * 0.05 := by
      have h := max_le_max (le_refl (0 : ℝ)) (show w1 - 5 ≤ w2 - 5 by linarith)
      nlinarith
    exact mul_le_mul_of_nonneg_right
      (mul_le_mul_of_nonneg_left hwf (mul_nonneg hbase0 hveg)) hsoil

/-- C4 witness: concrete monotone steps in each of the three arguments at
mixed vegetation and soil moisture 50. -/
theorem calculate_composite_index_monotone_witness :
    ((1 : ℝ) ≤ 2 ∧ calculate_composite_index 1 3 VegetationType.MIXED 4 50 ≤
      calculate_composite_index 2 3 VegetationType.MIXED 4 50) ∧
    ((3 : ℝ) ≤ 7 ∧ calculate_composite_index 1 3 VegetationType.MIXED 4 50 ≤
      calculate_composite_index 1 7 VegetationType.MIXED 4 50) ∧
    ((0 : ℝ) ≤ 100 ∧ (0 : ℝ) ≤ 10 ∧ (4 : ℝ) ≤ 6 ∧
      calculate_composite_index 100 10 VegetationType.MIXED 4 50 ≤
        calculate_composite_index 100 10 VegetationType.MIXED 6 50) :=
  ⟨⟨by norm_num,
    (calculate_composite_index_monotone VegetationType.MIXED 50).1 3 4 1 2 (by norm_num)⟩,
   ⟨by norm_num,
    (calculate_composite_index_monotone VegetationType.MIXED 50).2.1 1 4 3 7 (by norm_num)⟩,
   by norm_num, by norm_num, by norm_num,
   (calculate_composite_index_monotone VegetationType.MIXED 50).2.2 100 10 4 6
     (by norm_num) (by norm_num) (by norm_num)⟩

theorem calculate_humidity_deficit_nonneg (T h : ℝ) :
    0 ≤ calculate_humidity_deficit T h := by
  unfold calculate_humidity_deficit
  split_ifs
  · exact le_refl 0
  · exact le_max_left 0 _

theorem calculate_nesterov_index_nonneg (T h p prev : ℝ) (hprev : 0 ≤ prev) :
    0 ≤ calculate_nesterov_index T h p prev := by
  unfold calculate_nesterov_index
  split_ifs with h1 h2
  · exact le_refl 0
  · exact round2_nonneg (add_nonneg hprev
      (mul_nonneg (le_of_lt h2) (calculate_humidity_deficit_nonneg T h)))
  · exact round2_nonneg (by linarith)

theorem calculate_ffmc_mem_Icc (T h w p : ℝ) :
    0 ≤ calculate_ffmc T h w p ∧ calculate_ffmc T h w p ≤ 100 := by
  simp only [calculate_ffmc]
  constructor
  · exact round2_nonneg (le_max_left _ _)
  · exact le_trans (round2_mono (max_le (by norm_num) (min_le_left _ _)))
      (le_of_eq round2_hundred)

theorem calculate_isi_nonneg (w f : ℝ) (hf1 : 0 ≤ f) (hf2 : f ≤ 100) :
    0 ≤ calculate_isi w f := by
  simp only [calculate_isi]
  apply round2_nonneg
  have hm : 0 < 147.2 * (101 - f) / (59.5 + f) := by
    apply div_pos
    · nlinarith
    · linarith
  have hfw : 0 < Real.exp (0.05039 * (w * 3.6)) := Real.exp_pos _
  have hff : 0 < 91.9 * Real.exp (-0.1386 * (147.2 * (101 - f) / (59.5 + f))) *
      (1 + (147.2 * (101 - f) / (59.5 + f)) ^ (5.31 : ℝ) / (4.93 * (10 : ℝ) ^ (7 : ℕ))) := by
    apply mul_pos (mul_pos (by norm_num) (Real.exp_pos _))
    have hrp : 0 ≤ (147.2 * (101 - f) / (59.5 + f)) ^ (5.31 : ℝ) :=
      Real.rpow_nonneg (le_of_lt hm) _
    have : 0 ≤ (147.2 * (101 - f) / (59.5 + f)) ^ (5.31 : ℝ) / (4.93 * (10 : ℝ) ^ (7 : ℕ)) :=
      div_nonneg hrp (by norm_num)
    linarith
  exact le_of_lt (mul_pos (mul_pos (by norm_num) hfw) hff)

theorem calculate_simplified_fwi_nonneg (T h w p vm : ℝ) :
    0 ≤ calculate_simplified_fwi T h w p vm := by
  simp only [calculate_simplified_fwi]
  exact round2_nonneg (le_max_left _ _)

theorem calculate_composite_index_nonneg (n f : ℝ) (vt : VegetationType) (w sm : ℝ)
    (hn : 0 ≤ n) (hf : 0 ≤ f) :
    0 ≤ calculate_composite_index n f vt w sm := by
  unfold calculate_composite_index
  apply round2_nonneg
  have h1 : (0 : ℝ) ≤ min 100 (n / 100) :=
    le_min (by norm_num) (div_nonneg hn (by norm_num))
  have h2 : (0 : ℝ) ≤ min 100 f := le_min (by norm_num) hf
  have hveg : 0 ≤ get_vegetation_coefficient vt := by
    cases vt <;> norm_num [get_vegetation_coefficient]
  have hwf : 0 ≤ 1 + max 0 (w - 5) * 0.05 := by
    have h := le_max_left (0 : ℝ) (w - 5)
    nlinarith
  have hsoil : 0 ≤ max 0.5 (1 - sm / 200) := le_trans (by norm_num) (le_max_left _ _)
  have hbase : 0 ≤ 0.5 * min 100 (n / 100) + 0.5 * min 100 f := by linarith
  exact mul_nonneg (mul_nonneg (mul_nonneg hbase hveg) hwf) hsoil

/-- C5: given inputs in the declared ranges and a non-negative previous index,
every index output of the Danger-Index Engine is non-negative: the humidity
deficit, the Nesterov index, FFMC (which also stays ≤ 100), ISI fed the FFMC
output, the simplified FWI, and the composite index computed from the
engine-produced Nesterov and FWI values. -/
theorem danger_engine_outputs_nonneg (T h w p prev sm vm : ℝ) (vt : VegetationType)
    (hT1 : -50 ≤ T) (hT2 : T ≤ 60) (hh1 : 0 ≤ h) (hh2 : h ≤ 100)
    (hw1 : 0 ≤ w) (hw2 : w ≤ 50) (hp : 0 ≤ p)
    (hsm1 : 0 ≤ sm) (hsm2 : sm ≤ 100) (hvm1 : 0 ≤ vm) (hvm2 : vm ≤ 200)
    (hprev : 0 ≤ prev) :
    0 ≤ calculate_humidity_deficit T h ∧
    0 ≤ calculate_nesterov_index T h p prev ∧
    (0 ≤ calculate_ffmc T h w p ∧ calculate_ffmc T h w p ≤ 100) ∧
    0 ≤ calculate_isi w (calculate_ffmc T h w p) ∧
    0 ≤ calculate_simplified_fwi T h w p vm ∧
    0 ≤ calculate_composite_index (calculate_nesterov_index T h p prev)
        (calculate_simplified_fwi T h w p vm) vt w sm :=
  ⟨calculate_humidity_deficit_nonneg T h,
   calculate_nesterov_index_nonneg T h p prev hprev,
   calculate_ffmc_mem_Icc T h w p,
   calculate_isi_nonneg w (calculate_ffmc T h w p)
     (calculate_ffmc_mem_Icc T h w p).1 (calculate_ffmc_mem_Icc T h w p).2,
   calculate_simplified_fwi_nonneg T h w p vm,
   calculate_composite_index_nonneg _ _ vt w sm
     (calculate_nesterov_index_nonneg T h p prev hprev)
     (calculate_simplified_fwi_nonneg T h w p vm)⟩

/-- C5 witness: the non-negativity invariant instantiated at a concrete
in-range observation (T = 20 °C, humidity 50 %, wind 10 m/s, rain 1 mm,
previous index 0, soil moisture 50 %, vegetation moisture 100 %, mixed
vegetation). -/
theorem danger_engine_outputs_nonneg_witness :
    ((-50 : ℝ) ≤ 20 ∧ (20 : ℝ) ≤ 60 ∧ (0 : ℝ) ≤ 50 ∧ (50 : ℝ) ≤ 100 ∧
     (0 : ℝ) ≤ 10 ∧ (10 : ℝ) ≤ 50 ∧ (0 : ℝ) ≤ 1 ∧
     (0 : ℝ) ≤ 50 ∧ (50 : ℝ) ≤ 100 ∧ (0 : ℝ) ≤ 100 ∧ (100 : ℝ) ≤ 200 ∧ (0 : ℝ) ≤ 0) ∧
    (0 ≤ calculate_humidity_deficit 20 50 ∧
     0 ≤ calculate_nesterov_index 20 50 1 0 ∧
     (0 ≤ calculate_ffmc 20 50 10 1 ∧ calculate_ffmc 20 50 10 1 ≤ 100) ∧
     0 ≤ calculate_isi 10 (calculate_ffmc 20 50 10 1) ∧
     0 ≤ calculate_simplified_fwi 20 50 10 1 100 ∧
     0 ≤ calculate_composite_index (calculate_nesterov_index 20 50 1 0)
         (calculate_simplified_fwi 20 50 10 1 100) VegetationType.MIXED 10 50) :=
  ⟨⟨by norm_num, by norm_num, by norm_num, by norm_num, by norm_num, by norm_num,
    by norm_num, by norm_num, by norm_num, by norm_num, by norm_num, by norm_num⟩,
   danger_engine_outputs_nonneg 20 50 10 1 0 50 100 VegetationType.MIXED
     (by norm_num) (by norm_num) (by norm_num) (by norm_num) (by norm_num) (by norm_num)
     (by norm_num) (by norm_num) (by norm_num) (by norm_num) (by norm_num) (by norm_num)⟩

/-- C2 counterexample: at E = 0 (inside the claimed range [0,1], with v = 0,
rho = 1, W = 0, t = 1 all inside their claimed ranges) the front spread rate
v1 is 0, so it is not positive and the claim that all of v1, v2, v3, perimeter
and area are positive on E ∈ [0,1] fails. -/
theorem calculateFireSpread_v1_zero_at_zero_E :
    ((0 : ℝ) ≤ 0 ∧ (0 : ℝ) ≤ 1) ∧ ((0 : ℝ) ≤ 0 ∧ (0 : ℝ) ≤ 50) ∧
    ((0 : ℝ) < 1 ∧ (1 : ℝ) ≤ 1000) ∧ ((0 : ℝ) ≤ 0 ∧ (0 : ℝ) ≤ 200) ∧
    ((0 : ℝ) < 1 ∧ (1 : ℝ) ≤ 72) ∧
    (calculateFireSpread 0 0 1 0 1).v1 = 0 ∧
    ¬ (0 < (calculateFireSpread 0 0 1 0 1).v1) := by
  have e : (calculateFireSpread 0 0 1 0 1).v1 = 0 := by
    show (26 * 0 * (1 + 2.7 * 0) * (2 + 0) / (1 * (16 + 0)) : ℝ) = 0
    norm_num
  refine ⟨⟨by norm_num, by norm_num⟩, ⟨by norm_num, by norm_num⟩,
    ⟨by norm_num, by norm_num⟩, ⟨by norm_num, by norm_num⟩,
    ⟨by norm_num, by norm_num⟩, e, ?_⟩
  rw [e]
  norm_num

/-- C2 (amended): `calculateFireSpread` returns exactly the spec formulas
(v1 front rate, v2 flank, v3 rear, elliptic perimeter, area, and
areaHectares = area/10000 exactly), and for every input with E in (0,1]
(strictly positive emissivity; E = 0 gives v1 = 0), v in [0,50],
rho in (0,1000], W in [0,200], t in (0,72], all of v1, v2, v3, perimeter and
area are positive. -/
theorem calculateFireSpread_spec (E v rho W t : ℝ)
    (hE1 : 0 < E) (hE2 : E ≤ 1) (hv1 : 0 ≤ v) (hv2 : v ≤ 50)
    (hrho1 : 0 < rho) (hrho2 : rho ≤ 1000) (hW1 : 0 ≤ W) (hW2 : W ≤ 200)
    (ht1 : 0 < t) (ht2 : t ≤ 72) :
    ((calculateFireSpread E v rho W t).v1 =
        26 * E * (1 + 2.7 * v) * (2 + W) / (rho * (16 + W)) ∧
     (calculateFireSpread E v rho W t).v2 =
        0.35 * (calculateFireSpread E v rho W t).v1 + 0.17 ∧
     (calculateFireSpread E v rho W t).v3 =
        0.10 * (calculateFireSpread E v rho W t).v1 + 0.20 ∧
     (calculateFireSpread E v rho W t).perimeter =
        2 * Real.pi * Real.sqrt ((((calculateFireSpread E v rho W t).v1 +
          (calculateFireSpread E v rho W t).v3) ^ 2 +
          (calculateFireSpread E v rho W t).v2 ^ 2) / 8) * t ∧
     (calculateFireSpread E v rho W t).area =
        4e-6 * (calculateFireSpread E v rho W t).perimeter ^ 2 ∧
     (calculateFireSpread E v rho W t).areaHectares =
        (calculateFireSpread E v rho W t).area / 10000) ∧
    (0 < (calculateFireSpread E v rho W t).v1 ∧
     0 < (calculateFireSpread E v rho W t).v2 ∧
     0 < (calculateFireSpread E v rho W t).v3 ∧
     0 < (calculateFireSpread E v rho W t).perimeter ∧
     0 < (calculateFireSpread E v rho W t).area) := by
  have e1 : (calculateFireSpread E v rho W t).v1 =
      26 * E * (1 + 2.7 * v) * (2 + W) / (rho * (16 + W)) := rfl
  have e2 : (calculateFireSpread E v rho W t).v2 =
      0.35 * (calculateFireSpread E v rho W t).v1 + 0.17 := rfl
  have e3 : (calculateFireSpread E v rho W t).v3 =
      0.10 * (calculateFireSpread E v rho W t).v1 + 0.20 := rfl
  have e4 : (calculateFireSpread E v rho W t).perimeter =
      2 * Real.pi * Real.sqrt ((((calculateFireSpread E v rho W t).v1 +
        (calculateFireSpread E v rho W t).v3) ^ 2 +
        (calculateFireSpread E v rho W t).v2 ^ 2) / 8) * t := rfl
  have e5 : (calculateFireSpread E v rho W t).area =
      4e-6 * (calculateFireSpread E v rho W t).perimeter ^ 2 := rfl
  have e6 : (calculateFireSpread E v rho W t).areaHectares =
      (calculateFireSpread E v rho W t).area / 10000 := rfl
  have hp1 : 0 < (calculateFireSpread E v rho W t).v1 := by
    rw [e1]
    apply div_pos
    · have ha : (0 : ℝ) < 26 * E := mul_pos (by norm_num) hE1
      have hb : (0 : ℝ) < 1 + 2.7 * v := by nlinarith
      have hc : (0 : ℝ) < 2 + W := by linarith
      exact mul_pos (mul_pos ha hb) hc
    · exact mul_pos hrho1 (by linarith)
  have hp2 : 0 < (calculateFireSpread E v rho W t).v2 := by
    rw [e2]
    nlinarith
  have hp3 : 0 < (calculateFireSpread E v rho W t).v3 := by
    rw [e3]
    nlinarith
  have hp4 : 0 < (calculateFireSpread E v rho W t).perimeter := by
    rw [e4]
    have harg : 0 < (((calculateFireSpread E v rho W t).v1 +
        (calculateFireSpread E v rho W t).v3) ^ 2 +
        (calculateFireSpread E v rho W t).v2 ^ 2) / 8 := by
      apply div_pos _ (by norm_num)
      exact add_pos_of_nonneg_of_pos (sq_nonneg _) (pow_pos hp2 2)
    exact mul_pos (mul_pos (mul_pos two_pos Real.pi_pos) (Real.sqrt_pos.mpr harg)) ht1
  have hp5 : 0 < (calculateFireSpread E v rho W t).area := by
    rw [e5]
    exact mul_pos (by norm_num) (pow_pos hp4 2)
  exact ⟨⟨e1, e2, e3, e4, e5, e6⟩, hp1, hp2, hp3, hp4, hp5⟩

/-- C2 witness: the spec scenario E = 0.5, v = 2, rho = 12, W = 15, t = 1 has
all spread rates, the perimeter and the area positive, with areaHectares equal
to area/10000 exactly. -/
theorem calculateFireSpread_spec_witness :
    ((0 : ℝ) < 0.5 ∧ (0.5 : ℝ) ≤ 1 ∧ (0 : ℝ) ≤ 2 ∧ (2 : ℝ) ≤ 50 ∧
     (0 : ℝ) < 12 ∧ (12 : ℝ) ≤ 1000 ∧ (0 : ℝ) ≤ 15 ∧ (15 : ℝ) ≤ 200 ∧
     (0 : ℝ) < 1 ∧ (1 : ℝ) ≤ 72) ∧
    ((calculateFireSpread 0.5 2 12 15 1).areaHectares =
       (calculateFireSpread 0.5 2 12 15 1).area / 10000 ∧
     0 < (calculateFireSpread 0.5 2 12 15 1).v1 ∧
     0 < (calculateFireSpread 0.5 2 12 15 1).v2 ∧
     0 < (calculateFireSpread 0.5 2 12 15 1).v3 ∧
     0 < (calculateFireSpread 0.5 2 12 15 1).perimeter ∧
     0 < (calculateFireSpread 0.5 2 12 15 1).area) :=
  ⟨⟨by norm_num, by norm_num, by norm_num, by norm_num, by norm_num, by norm_num,
    by norm_num, by norm_num, by norm_num, by norm_num⟩,
   ⟨((calculateFireSpread_spec 0.5 2 12 15 1 (by norm_num) (by norm_num) (by norm_num)
       (by norm_num) (by norm_num) (by norm_num) (by norm_num) (by norm_num)
       (by norm_num) (by norm_num)).1).2.2.2.2.2,
    (calculateFireSpread_spec 0.5 2 12 15 1 (by norm_num) (by norm_num) (by norm_num)
       (by norm_num) (by norm_num) (by norm_num) (by norm_num) (by norm_num)
       (by norm_num) (by norm_num)).2⟩⟩
